import Mathlib

/-!
# Verification of the anime-site identity-resolution pipeline

Shallow embedding, in Lean 4, of the core logic of the `deepghs/anime_sites`
repository: the LLM-reply parser and single-attempt judgment
(`sites/subsplease/llm.py` / `sites/fancaps/llm.py`, `_parse_output` and
`_ask_chatgpt`), the majority-vote resolver (`get_full_info_for_subsplease` /
`get_full_info_for_fancaps`), the catalog search client
(`sites/utils/mal.py`, `get_items_from_myanimelist`), the incremental sync
loops (`sites/subsplease/match.py` / `sites/fancaps/match.py`, `sync`), and
the deterministic override path (`sites/subsplease/rp.py`,
`get_full_info_for_replace`).

External collaborators (the HTTP transport, the LLM completion endpoint, the
Jikan catalog API, `dateparser` / `datetime`) are modelled as inputs: the
sequence of textual replies the judgment service would produce, the list of
search results the catalog would return, the parsed release timestamps, and
a timestamp-to-year function.  Python `None`/integer fields become `Option
Nat`; Python truthiness on those fields (`if mal_id`, `x or y`) is embedded
explicitly.
-/

namespace AnimeSites

/-- One search-result entry from the MyAnimeList (Jikan) API, restricted to
the fields the pipeline reads: `mal_id`, `type`, `title`, `year`.
(`type` is stored as `mtype`; a missing JSON value is `none`.) -/
structure MalItem where
  mal_id : Nat
  mtype : Option String
  title : String
  year : Option Nat
  deriving Repr, DecidableEq

/-- The four fields extracted from a well-formed LLM reply by
`_parse_output`: `mal_id` and `year` are an integer or the `null` token,
`title` is the raw text after the label (never Python `None`), `reason` the
joined trailing lines. -/
structure ParsedInfo where
  mal_id : Option Nat
  title : String
  year : Option Nat
  reason : String
  deriving Repr, DecidableEq

/-- The dictionary produced by one `_ask_chatgpt` attempt (and consumed by
the majority vote): `mal_id`/`title`/`year`/`reason` plus the matched
search-result record under the `mal` key (`none` on no-match). -/
structure Judgment where
  mal_id : Option Nat
  title : Option String
  year : Option Nat
  reason : String
  mal : Option MalItem
  deriving Repr, DecidableEq

/-- Python truthiness of an optional integer: `None` and `0` are falsy. -/
def truthyOptNat : Option Nat → Bool
  | none => false
  | some n => n != 0

/-- Python `a or b` on two optional integers (`None` and `0` are falsy),
as used in `'year': d_items[pinfo['mal_id']]['year'] or pinfo['year']`. -/
def pyOrYear (a b : Option Nat) : Option Nat :=
  if truthyOptNat a then a else b

/-- `d_items = {item['mal_id']: item for item in search_result}` followed by
`d_items[key]`: a dict comprehension keeps the last item with a given id. -/
def dItemsGet (searchResult : List MalItem) (id : Nat) : Option MalItem :=
  searchResult.reverse.find? (fun it => it.mal_id == id)

/-- `key in d_items` for the same dictionary. -/
def dItemsMem (searchResult : List MalItem) (id : Nat) : Bool :=
  searchResult.any (fun it => it.mal_id == id)

/-- The no-match branch of `_ask_chatgpt`: `mal_id`/`title`/`mal` are
`None`, the parsed reply's `reason` and `year` are carried over. -/
def nullJudgment (pinfo : ParsedInfo) : Judgment :=
  { mal_id := none, title := none, year := pinfo.year,
    reason := pinfo.reason, mal := none }

/-- The tail of `_ask_chatgpt` (`sites/subsplease/llm.py` lines 176-191,
`sites/fancaps/llm.py` lines 141-155) applied to one successfully parsed
reply: `if pinfo['mal_id'] and pinfo['mal_id'] in d_items:` builds the
success dictionary (year overridden by the candidate's own year when that
is truthy), otherwise the null judgment is returned. -/
def attemptResult (searchResult : List MalItem) (pinfo : ParsedInfo) : Judgment :=
  match pinfo.mal_id with
  | none => nullJudgment pinfo
  | some id =>
    if id != 0 && dItemsMem searchResult id then
      match dItemsGet searchResult id with
      | some item =>
        { mal_id := some id, title := some pinfo.title,
          year := pyOrYear item.year pinfo.year,
          reason := pinfo.reason, mal := some item }
      | none => nullJudgment pinfo
    else
      nullJudgment pinfo

/-! ## Majority vote (`get_full_info_for_subsplease` / `get_full_info_for_fancaps`) -/

/-- Number of votes a given `mal_id` value received:
`mal_ids[val['mal_id']] += 1` accumulated over the attempt list. -/
def voteCount (vals : List Judgment) (k : Option Nat) : Nat :=
  (vals.filter (fun v => v.mal_id == k)).length

/-- `d_mal_vals`: insertion-ordered association of each distinct `mal_id`
value to its first-seen judgment (`if val['mal_id'] not in d_mal_vals:
d_mal_vals[val['mal_id']] = val`).  `seen` accumulates the keys already
inserted. -/
def dMalValsGo (seen : List (Option Nat)) : List Judgment → List (Option Nat × Judgment)
  | [] => []
  | v :: rest =>
    if v.mal_id ∈ seen then dMalValsGo seen rest
    else (v.mal_id, v) :: dMalValsGo (v.mal_id :: seen) rest

def dMalVals (vals : List Judgment) : List (Option Nat × Judgment) :=
  dMalValsGo [] vals

/-- First-seen lookup in an association list (Python `dict` access). -/
def alistGet (l : List (Option Nat × Judgment)) (k : Option Nat) : Option Judgment :=
  (l.find? (fun p => p.1 == k)).map Prod.snd

/-- Rendering of the residual tally dictionary interpolated into the
split-vote reason (`{mal_ids!r}` / `{dict(mal_ids)!r}`); entries appear in
first-seen key order, as in the Python dict repr.  (The subsplease variant
wraps this in the `defaultdict(...)` repr; only the tally part is
modelled.) -/
def tallyRepr (tally : List (Nat × Nat)) : String :=
  "\x7b" ++ String.intercalate ", "
    (tally.map (fun p => toString p.1 ++ ": " ++ toString p.2)) ++ "\x7d"

/-- `plural_word(val_times, "time")`. -/
def pluralTimes (n : Nat) : String :=
  toString n ++ (if n == 1 then " time" else " times")

/-- The synthesized split-vote reason:
`f'Cannot determine which anime it is due to the complex result in
{plural_word(val_times, "time")}: {mal_ids!r}'`. -/
def complexReason (valTimes : Nat) (tally : List (Nat × Nat)) : String :=
  "Cannot determine which anime it is due to the complex result in "
    ++ pluralTimes valTimes ++ ": " ++ tallyRepr tally

/-- The non-null vote tally in first-seen key order:
`mal_ids` after `del mal_ids[None]` (iteration order of a Python dict is
insertion order of the surviving keys). -/
def nonNullTally (vals : List Judgment) : List (Nat × Nat) :=
  (dMalVals vals).filterMap (fun p =>
    match p.1 with
    | none => none
    | some a => some (a, voteCount vals (some a)))

/-- The vote-resolution tail of `get_full_info_for_subsplease`
(`sites/subsplease/llm.py` lines 222-252) and `get_full_info_for_fancaps`
(`sites/fancaps/llm.py` lines 180-210), operating on the list of
judgments collected from the attempts:

* `for mal_id, count in mal_ids.items(): if mal_id and count >= min_val:`
  — scan the surviving keys in first-seen order and return the first-seen
  judgment of the first truthy id with at least `min_val` votes;
* `if None in d_mal_vals: return d_mal_vals[None]` — else the first null
  judgment;
* else synthesize a null judgment whose reason cites the split tally and
  whose year is taken from `list(d_mal_vals.values())[0]` (the first
  attempt).  The `head?` totalisation only differs from Python on an empty
  attempt list, where the source would raise `IndexError`. -/
def resolveVotes (valTimes minVal : Nat) (vals : List Judgment) : Judgment :=
  let dvals := dMalVals vals
  match dvals.find? (fun p =>
      match p.1 with
      | none => false
      | some a => a != 0 && minVal ≤ voteCount vals (some a)) with
  | some p => p.2
  | none =>
    match alistGet dvals none with
    | some j => j
    | none =>
      { mal_id := none, title := none,
        year := match dvals.head? with
                | some p => p.2.year
                | none => none,
        reason := complexReason valTimes (nonNullTally vals),
        mal := none }

/-- The full per-item resolution: `for i in range(val_times): val =
_ask_chatgpt(...)` collects exactly `valTimes` judgments (the single-attempt
procedure, abstracted as the function `attempt` from the attempt index to
its resulting judgment), then the votes are resolved.  The site-specific
payload attached to the returned dictionary (`'subsplease': ...` /
`'fancaps': ...`) is orthogonal to the judgment fields and not modelled. -/
def get_full_info (attempt : Nat → Judgment) (valTimes minVal : Nat) : Judgment :=
  resolveVotes valTimes minVal ((List.range valTimes).map attempt)

/-! ## LLM reply parsing (`_parse_output`) and the retry loop (`_ask_chatgpt`) -/

/-- ASCII whitespace as matched by Python `str.strip()` and `\s` (Unicode
whitespace beyond ASCII is not modelled; the pipeline's labels and values
are ASCII). -/
def isPySpace (c : Char) : Bool :=
  c == ' ' || c == '\t' || c == '\n' || c == '\r' || c == '\x0b' || c == '\x0c'

def dropLeadingSpaces (cs : List Char) : List Char :=
  cs.dropWhile isPySpace

/-- `str.strip()` on a character list. -/
def pyStripList (cs : List Char) : List Char :=
  ((cs.dropWhile isPySpace).reverse.dropWhile isPySpace).reverse

/-- `str.strip()`. -/
def pyStrip (s : String) : String :=
  String.mk (pyStripList s.toList)

/-- `str.splitlines(keepends=False)` worker, breaking on `\n`, `\r` and
`\r\n` (the exotic Unicode line boundaries Python additionally recognises
are not modelled). -/
def splitLinesAux : List Char → List Char → List (List Char)
  | [], acc => [acc.reverse]
  | '\r' :: '\n' :: rest, acc => acc.reverse :: splitLinesAux rest []
  | '\r' :: rest, acc => acc.reverse :: splitLinesAux rest []
  | '\n' :: rest, acc => acc.reverse :: splitLinesAux rest []
  | c :: rest, acc => splitLinesAux rest (c :: acc)

/-- `str.splitlines(keepends=False)`.  The empty string yields no lines;
`_parse_output` only ever applies this to an already-stripped string, for
which the model agrees with Python (a stripped nonempty string never ends
in a line break, so no trailing empty line can arise). -/
def pySplitlines (s : String) : List String :=
  if s.isEmpty then [] else (splitLinesAux s.toList []).map fun cs => String.mk cs

/-- Match a literal label prefix, returning the remainder. -/
def dropExact : List Char → List Char → Option (List Char)
  | [], cs => some cs
  | _ :: _, [] => none
  | l :: ls, c :: cs => if c == l then dropExact ls cs else none

def digitsToNat (cs : List Char) : Nat :=
  cs.foldl (fun n c => n * 10 + (c.toNat - '0'.toNat)) 0

def malIdLabel : List Char := ['m', 'a', 'l', '_', 'i', 'd']

def yearLabel : List Char := ['y', 'e', 'a', 'r']

def titleLabel : List Char := ['t', 'i', 't', 'l', 'e']

def reasonLabel : List Char := ['r', 'e', 'a', 's', 'o', 'n']

/-- `re.fullmatch(r'^LABEL\s*:\s*(?P<v>\d+|null)$', line)` followed by
`json.loads` on the captured group: the value after the colon must be the
`null` token (giving Python `None`) or a nonempty digit string (giving an
integer); anything else is no match (an `AttributeError` in the source,
i.e. a parse failure). -/
def parseIntOrNull (label : List Char) (line : List Char) : Option (Option Nat) :=
  match dropExact label line with
  | none => none
  | some rest =>
    match dropLeadingSpaces rest with
    | ':' :: rest2 =>
      let v := dropLeadingSpaces rest2
      if v == ['n', 'u', 'l', 'l'] then some none
      else if !v.isEmpty && v.all Char.isDigit then some (some (digitsToNat v))
      else none
    | _ => none

/-- `re.fullmatch(r'^title\s*:\s*(?P<title>[\s\S]+?)\s*$', line)`: the
captured group is the text after the colon with surrounding whitespace
stripped; it must be nonempty.  (No `json.loads` here: a literal `null`
title stays the string "null".) -/
def parseTitleLine (line : List Char) : Option String :=
  match dropExact titleLabel line with
  | none => none
  | some rest =>
    match dropLeadingSpaces rest with
    | ':' :: rest2 =>
      let v := pyStripList rest2
      if v.isEmpty then none else some (String.mk v)
    | _ => none

/-- `re.fullmatch(r'^reason\s*:\s*(?P<reason>[\s\S]*?)\s*$', line)`: like
the title line but the captured group may be empty. -/
def parseReasonLine (line : List Char) : Option String :=
  match dropExact reasonLabel line with
  | none => none
  | some rest =>
    match dropLeadingSpaces rest with
    | ':' :: rest2 => some (String.mk (pyStripList rest2))
    | _ => none

/-- The `_NOT_SET` markers of `_parse_output`: `none` is `_NOT_SET`. -/
structure ParseState where
  mal_id : Option (Option Nat)
  title : Option String
  year : Option (Option Nat)
  reason : Option String
  deriving Repr, DecidableEq

def initParseState : ParseState :=
  { mal_id := none, title := none, year := none, reason := none }

/-- One iteration of the line loop of `_parse_output`: before a field is
set, empty (stripped) lines are skipped and the next nonempty line must
match that field's regex (a mismatch is the source's `AttributeError` on
`None.group`, i.e. `none` here); once `reason` is set every further line is
appended to it with a newline.  Note the reason branch has no empty-line
guard, faithfully to the source. -/
def parseLine (st : ParseState) (rawLine : String) : Option ParseState :=
  let line := pyStripList rawLine.toList
  match st.mal_id with
  | none =>
    if line.isEmpty then some st
    else (parseIntOrNull malIdLabel line).map fun v => { st with mal_id := some v }
  | some _ =>
  match st.title with
  | none =>
    if line.isEmpty then some st
    else (parseTitleLine line).map fun v => { st with title := some v }
  | some _ =>
  match st.year with
  | none =>
    if line.isEmpty then some st
    else (parseIntOrNull yearLabel line).map fun v => { st with year := some v }
  | some _ =>
  match st.reason with
  | none => (parseReasonLine line).map fun v => { st with reason := some v }
  | some r => some { st with reason := some (r ++ "\n" ++ String.mk line) }

/-- `_parse_output` (`sites/subsplease/llm.py` lines 106-138 and the
identical copy in `sites/fancaps/llm.py`): strip the reply, walk its lines,
and require all four fields to be set at the end (the `assert`s); any
failure is an exception caught by the retry loop, i.e. `none`. -/
def parseOutput (output : String) : Option ParsedInfo :=
  match (pySplitlines (pyStrip output)).foldlM parseLine initParseState with
  | none => none
  | some st =>
    match st.mal_id, st.title, st.year, st.reason with
    | some m, some t, some y, some r =>
      some { mal_id := m, title := t, year := y, reason := r }
    | _, _, _, _ => none

/-- The retry loop of `_ask_chatgpt` unrolled over the sequence of textual
replies the judgment service would produce: each iteration submits the
request, parses the reply, and on success returns `attemptResult`; a parse
failure consumes one of the `max_tries` attempts.  Exhausting the list is
the source's `raise RuntimeError(...)`. -/
def askAttempts (searchResult : List MalItem) : List String → Except Unit Judgment
  | [] => Except.error ()
  | r :: rest =>
    match parseOutput r with
    | some pinfo => Except.ok (attemptResult searchResult pinfo)
    | none => askAttempts searchResult rest

/-- `_ask_chatgpt` with the judgment service abstracted as the list of its
successive replies: `while tries < max_tries` draws at most `maxTries`
replies. -/
def ask_chatgpt (searchResult : List MalItem) (replies : List String)
    (maxTries : Nat) : Except Unit Judgment :=
  askAttempts searchResult (replies.take maxTries)

/-! ## Incremental sync loops (`sync` in `match.py` of both sites) -/

/-- One persisted row, restricted to the fields the skip logic reads
(the source rows additionally carry the site-prefixed and mal-prefixed
payload columns, which the loop never re-inspects). -/
structure Row where
  page_id : String
  mal_id : Option Nat
  year : Option Nat
  reason : String
  deriving Repr, DecidableEq

/-- `page_id in d_animes` / `d_animes[page_id]` on the in-memory table,
modelled as an insertion-ordered association list. -/
def tblLookup (t : List (String × Row)) (k : String) : Option Row :=
  (t.find? (fun p => p.1 == k)).map Prod.snd

/-- `d_animes[page_id] = row`: replace in place if present, else append. -/
def tblUpsert (t : List (String × Row)) (k : String) (r : Row) : List (String × Row) :=
  if (t.find? (fun p => p.1 == k)).isSome then
    t.map fun p => if p.1 == k then (k, r) else p
  else t ++ [(k, r)]

/-- The row built from a resolution (`row = {'page_id': ..., 'mal_id':
full_info['mal_id'], 'reason': ..., 'year': ...}`). -/
def mkRow (pageId : String) (j : Judgment) : Row :=
  { page_id := pageId, mal_id := j.mal_id, year := j.year, reason := j.reason }

/-- The two skip checks heading both loop bodies:
`if page_id in d_animes and d_animes[page_id]['mal_id']: continue`
(`mal_id` tested for Python truthiness) and
`elif not sync_mode and page_id in d_animes: continue`. -/
def shouldSkip (syncMode : Bool) (t : List (String × Row)) (pageId : String) : Bool :=
  match tblLookup t pageId with
  | some row => truthyOptNat row.mal_id || !syncMode
  | none => false

/-- The item loop of `sync` in `sites/fancaps/match.py` (lines 245-271):
the resolution call sits in a `try:`/`except:` that logs and `continue`s,
so a failing item is skipped and the loop proceeds with the table intact.
The resolver is abstracted as a fallible function of the page id; the
periodic `_deploy()` checkpointing does not change the table and is not
modelled. -/
def fancapsSyncLoop (syncMode : Bool) (resolve : String → Except Unit Judgment) :
    List (String × Row) → List String → List (String × Row)
  | t, [] => t
  | t, pid :: rest =>
    if shouldSkip syncMode t pid then fancapsSyncLoop syncMode resolve t rest
    else
      match resolve pid with
      | Except.ok j => fancapsSyncLoop syncMode resolve (tblUpsert t pid (mkRow pid j)) rest
      | Except.error _ => fancapsSyncLoop syncMode resolve t rest

/-- The item loop of `sync` in `sites/subsplease/match.py` (lines 302-326):
the call to `get_full_info_for_subsplease` is NOT guarded by any
`try:`/`except:`, so an exception propagates out of the loop and aborts
the run (`Except.error`). -/
def subspleaseSyncLoop (syncMode : Bool) (resolve : String → Except Unit Judgment) :
    List (String × Row) → List String → Except Unit (List (String × Row))
  | t, [] => Except.ok t
  | t, pid :: rest =>
    if shouldSkip syncMode t pid then subspleaseSyncLoop syncMode resolve t rest
    else
      match resolve pid with
      | Except.ok j => subspleaseSyncLoop syncMode resolve (tblUpsert t pid (mkRow pid j)) rest
      | Except.error e => Except.error e

/-! ## Deterministic override path (`get_full_info_for_replace`, `rp.py`) -/

/-- One release entry (batch or episode) of a subsplease show page;
`release_ts` stands for `dateparser.parse(item['release_date']).timestamp()`
(the external date parser is modelled as having already produced the
timestamp). -/
structure SubsRelease where
  release_ts : Nat
  deriving Repr, DecidableEq

/-- The subsplease page info consumed by the override path (after
`del subs_info['prompt']`; the remaining scraped text fields are not read
by the logic under verification). -/
structure SubsInfo where
  page_id : String
  title : String
  batch : List SubsRelease
  episode : List SubsRelease
  deriving Repr, DecidableEq

/-- The `min_timestamp` accumulation loop of `get_full_info_for_replace`:
`if not min_timestamp or timestamp < min_timestamp: min_timestamp =
timestamp` — note Python truthiness: an accumulator holding `0` counts as
unset. -/
def minTimestampStep (acc : Option Nat) (ts : Nat) : Option Nat :=
  match acc with
  | none => some ts
  | some m => if m == 0 then some ts else if ts < m then some ts else acc

def minTimestamp (tss : List Nat) : Option Nat :=
  tss.foldl minTimestampStep none

/-- Python `repr` of a plain string (no embedded quotes/escapes modelled),
as interpolated by `{page_url!r}`. -/
def pyReprStr (s : String) : String :=
  "'" ++ s ++ "'"

/-- `get_full_info_for_replace` (`sites/subsplease/rp.py` lines 26-48): the
operator supplies `(page_url, mal_id)`; the full catalog record fetched by
`jikan_client.get_anime_full(mal_id)` is the `malInfo` input; `tsYear`
stands for `datetime.datetime.fromtimestamp(...).year`.  The `year` of the
returned judgment is computed from the earliest release timestamp of the
item's own batch+episode entries (`None` when there are none), and the
reason cites the manual override. -/
def get_full_info_for_replace (tsYear : Nat → Nat) (pageUrl : String) (malId : Nat)
    (subs : SubsInfo) (malInfo : MalItem) : Judgment :=
  let tss := (subs.batch ++ subs.episode).map SubsRelease.release_ts
  { mal_id := some malInfo.mal_id,
    title := some malInfo.title,
    reason := "Admin specified " ++ pyReprStr pageUrl ++ " to mal #" ++ toString malId,
    year :=
      match minTimestamp tss with
      | some m => if m == 0 then none else some (tsYear m)
      | none => none,
    mal := some malInfo }

/-! ## Embedded feed lookup by quality tier (erai-raws adapter) -/

/-- One entry of the remote release feed. -/
structure FeedEntry where
  title : String
  link : String
  deriving Repr, DecidableEq

/-- Modelled from the spec: the erai-raws embedded-feed lookup is absent
from the code as given (`get_anime_info` in `sites/erairaws/info.py`
accepts the `session_rss` feed sessions, and `sites/erairaws/lst.py`
passes them, but the body that queries the feed is not present under
`src/`).  Modelled from the spec's words: "the remote feed queried once
per candidate quality tier (e.g., \x221080p\x22, \x22720p\x22, \x22SD\x22)
stopping at the first tier that returns any entries — tier order is a
fixed preference list, first non-empty wins, no merge across tiers."
Returns the list of tiers actually queried together with the winning
`(tier, entries)` pair, if any. -/
def feedLookupGo (queryFeed : String → List FeedEntry) :
    List String → List String × Option (String × List FeedEntry)
  | [] => ([], none)
  | tier :: rest =>
    let es := queryFeed tier
    if es.isEmpty then
      let (qs, r) := feedLookupGo queryFeed rest
      (tier :: qs, r)
    else ([tier], some (tier, es))

def feedLookup (queryFeed : String → List FeedEntry) (tiers : List String) :
    List String × Option (String × List FeedEntry) :=
  feedLookupGo queryFeed tiers

/-! ## Catalog search client (`get_items_from_myanimelist`, `utils/mal.py`;
an identical copy lives in `sites/subsplease/llm.py`) -/

/-- The media-type allow-list: the keys of
`type_map = {'tv': 0, 'movie': 1, 'ova': 2, 'ona': 2}`. -/
def typeMapKeys : List String := ["tv", "movie", "ova", "ona"]

/-- Python `str.lower()`, character-wise (ASCII case mapping). -/
def pyLower (s : String) : String :=
  String.mk (s.toList.map Char.toLower)

/-- The filtering/deduplication loop over the raw Jikan search results:
`if not pyaitem['type'] or pyaitem['type'].lower() not in type_map:
continue`, then `if pyaitem['mal_id'] in exist_mal_ids: continue`; `seen`
accumulates `exist_mal_ids`. -/
def filterItemsGo : List MalItem → List Nat → List MalItem
  | [], _ => []
  | it :: rest, seen =>
    match it.mtype with
    | none => filterItemsGo rest seen
    | some ty =>
      if ty.isEmpty then filterItemsGo rest seen
      else if !(typeMapKeys.contains (pyLower ty)) then filterItemsGo rest seen
      else if seen.contains it.mal_id then filterItemsGo rest seen
      else it :: filterItemsGo rest (it.mal_id :: seen)

/-- The pure tail of `get_items_from_myanimelist` applied to the search
reply (the leading 429-retry loop is `searchAnimeLoop` below). -/
def get_items_from_myanimelist (items : List MalItem) : List MalItem :=
  filterItemsGo items []

/-- The claim's own description of the filter (spec §4.2), for the
refinement proof: filter to the allowed media types (case-insensitively,
dropping entries with a missing type), then de-duplicate by id keeping
the first occurrence. -/
def specAllowedType (it : MalItem) : Bool :=
  match it.mtype with
  | none => false
  | some ty => typeMapKeys.contains (pyLower ty)

def specDedupFirst : List MalItem → List Nat → List MalItem
  | [], _ => []
  | it :: rest, seen =>
    if seen.contains it.mal_id then specDedupFirst rest seen
    else it :: specDedupFirst rest (it.mal_id :: seen)

/-- Outcome of one `jikan_client.search_anime(query=title)` call. -/
inductive SearchOutcome where
  | ok (items : List MalItem)
  | httpError (status : Nat)
  deriving Repr, DecidableEq

/-- Observable state of the 429-retry loop after unrolling a bounded
number of iterations. -/
inductive SearchResult where
  | done (items : List MalItem)
  | raised (status : Nat)
  | retrying
  deriving Repr, DecidableEq

/-- The `while True` loop of `get_items_from_myanimelist`
(`sites/utils/mal.py` lines 17-27): attempt `i` observes `responses i`;
a 429 `HTTPError` sleeps 5.0 seconds and retries the same query, any other
`HTTPError` re-raises, a success breaks out.  The source loop is unbounded;
`fuel` only bounds how far the model unrolls it (`retrying` = the loop is
still running after `fuel` attempts).  The second component accumulates
the total seconds slept. -/
def searchAnimeLoop (responses : Nat → SearchOutcome) : Nat → Nat → SearchResult × Nat
  | _, 0 => (SearchResult.retrying, 0)
  | i, fuel + 1 =>
    match responses i with
    | SearchOutcome.ok items => (SearchResult.done items, 0)
    | SearchOutcome.httpError s =>
      if s == 429 then
        let (r, slept) := searchAnimeLoop responses (i + 1) fuel
        (r, slept + 5)
      else (SearchResult.raised s, 0)

/-! ## Concrete inputs used by the witness and counterexample theorems -/

def plainJudgment (id : Option Nat) (r : String) (y : Option Nat) : Judgment :=
  { mal_id := id, title := none, year := y, reason := r, mal := none }

/-- Attempt sequence with vote multiset `{7: 4, 9: 1}`. -/
def attemptSeqMajor : Nat → Judgment := fun i =>
  match i with
  | 0 => plainJudgment (some 7) "first a" (some 2001)
  | 1 => plainJudgment (some 9) "only b" none
  | _ => plainJudgment (some 7) "later a" none

/-- Attempt sequence with vote multiset `{7: 2, 9: 2, null: 1}`. -/
def attemptSeqNull : Nat → Judgment := fun i =>
  match i with
  | 0 => plainJudgment (some 7) "a1" none
  | 1 => plainJudgment (some 9) "b1" none
  | 2 => plainJudgment none "first null" (some 1999)
  | 3 => plainJudgment (some 7) "a2" none
  | _ => plainJudgment (some 9) "b2" none

/-- Attempt sequence with five pairwise-distinct non-null ids. -/
def attemptSeqSplit : Nat → Judgment := fun i =>
  plainJudgment (some (i + 1)) ("r" ++ toString i) (if i == 0 then some 2020 else none)

def sampleSearch : List MalItem :=
  [{ mal_id := 10, mtype := some "tv", title := "Show A", year := some 2001 },
   { mal_id := 11, mtype := some "movie", title := "Show B", year := none }]

def samplePinfo : ParsedInfo :=
  { mal_id := some 42, title := "Show X", year := some 2020, reason := "looks right" }

def sampleZeroItem : MalItem :=
  { mal_id := 0, mtype := some "tv", title := "Zero", year := some 1999 }

def samplePinfoZero : ParsedInfo :=
  { mal_id := some 0, title := "null", year := some 2011, reason := "no good match" }

def sampleRow : Row :=
  { page_id := "p1", mal_id := some 3, year := some 2001, reason := "matched" }

def sampleUnsettledRow : Row :=
  { page_id := "p2", mal_id := none, year := none, reason := "no match" }

def sampleTable : List (String × Row) :=
  [("p1", sampleRow), ("p2", sampleUnsettledRow)]

def sampleResolve : String → Except Unit Judgment := fun _ =>
  Except.ok (plainJudgment (some 6) "resolved" (some 2015))

/-- A resolver that raises on page "x" and succeeds elsewhere. -/
def failingResolve : String → Except Unit Judgment := fun pid =>
  if pid == "x" then Except.error () else Except.ok (plainJudgment (some 3) "ok" none)

def sampleTsYear : Nat → Nat := fun ts => 1970 + ts / 31536000

def sampleSubs : SubsInfo :=
  { page_id := "show-1", title := "Show", batch := [],
    episode := [{ release_ts := 1672531200 }] }

def sampleSubsNoReleases : SubsInfo :=
  { page_id := "show-2", title := "Show Two", batch := [], episode := [] }

def sampleMalFull : MalItem :=
  { mal_id := 5, mtype := some "tv", title := "Show Full", year := some 2010 }

def sampleFeedEntry : FeedEntry := { title := "ep1 720", link := "l1" }

/-- Feed with nothing at 1080p and entries at 720p and SD. -/
def sampleQueryFeed : String → List FeedEntry := fun tier =>
  if tier == "720p" then [sampleFeedEntry]
  else if tier == "SD" then [{ title := "ep1 sd", link := "l2" }]
  else []

/-- Two 429 responses, then success. -/
def sampleResponsesOk : Nat → SearchOutcome := fun i =>
  if i < 2 then SearchOutcome.httpError 429 else SearchOutcome.ok sampleSearch

/-- A 429 response, then a 500. -/
def sampleResponsesErr : Nat → SearchOutcome := fun i =>
  if i == 0 then SearchOutcome.httpError 429 else SearchOutcome.httpError 500

/-- Nothing but 429 responses. -/
def sampleResponses429 : Nat → SearchOutcome := fun _ =>
  SearchOutcome.httpError 429

/-! ## Shared lemmas about the vote bookkeeping -/

theorem alistGet_dMalValsGo (vals : List Judgment) :
    ∀ (seen : List (Option Nat)) (k : Option Nat),
      alistGet (dMalValsGo seen vals) k =
        if k ∈ seen then none else vals.find? (fun v => v.mal_id == k) := by
  induction vals with
  | nil => intro seen k; by_cases h : k ∈ seen <;> simp [dMalValsGo, alistGet, h]
  | cons v rest ih =>
    intro seen k
    by_cases hv : v.mal_id ∈ seen
    · rw [dMalValsGo, if_pos hv, ih]
      by_cases hk : k ∈ seen
      · simp [hk]
      · have hne : (v.mal_id == k) = false :=
          beq_eq_false_iff_ne.mpr (fun h => hk (h ▸ hv))
        simp [hk, List.find?, hne]
    · rw [dMalValsGo, if_neg hv]
      by_cases hk : k = v.mal_id
      · subst hk
        simp [alistGet, List.find?, hv]
      · have h1 : (v.mal_id == k) = false := by
          simp [Ne.symm hk]
        have h2 : ((v.mal_id, v).1 == k) = false := h1
        rw [alistGet, List.find?, h2, ← alistGet, ih]
        by_cases hks : k ∈ seen
        · simp [hks, hk]
        · simp [hks, hk, List.find?, h1]

theorem mem_dMalValsGo (vals : List Judgment) :
    ∀ (seen : List (Option Nat)) (p : Option Nat × Judgment),
      p ∈ dMalValsGo seen vals →
        p.1 ∉ seen ∧ p.2.mal_id = p.1 ∧
          vals.find? (fun v => v.mal_id == p.1) = some p.2 := by
  induction vals with
  | nil => intro seen p hp; simp [dMalValsGo] at hp
  | cons v rest ih =>
    intro seen p hp
    by_cases hv : v.mal_id ∈ seen
    · rw [dMalValsGo, if_pos hv] at hp
      obtain ⟨h1, h2, h3⟩ := ih seen p hp
      have hne : (v.mal_id == p.1) = false :=
        beq_eq_false_iff_ne.mpr (fun h => h1 (h ▸ hv))
      refine ⟨h1, h2, ?_⟩
      rw [List.find?, hne]; exact h3
    · rw [dMalValsGo, if_neg hv] at hp
      rcases List.mem_cons.mp hp with hph | hpt
      · subst hph
        refine ⟨hv, rfl, ?_⟩
        simp [List.find?]
      · obtain ⟨h1, h2, h3⟩ := ih (v.mal_id :: seen) p hpt
        have h1' : p.1 ∉ seen := fun h => h1 (List.mem_cons_of_mem _ h)
        have hne : (v.mal_id == p.1) = false :=
          beq_eq_false_iff_ne.mpr (fun h => h1 (h ▸ List.mem_cons_self _ _))
        refine ⟨h1', h2, ?_⟩
        rw [List.find?, hne]; exact h3

theorem find?_eq_some_of_unique {α : Type} (l : List α) (p : α → Bool) (x : α)
    (hx : x ∈ l) (hpx : p x = true)
    (huniq : ∀ y ∈ l, p y = true → y = x) :
    l.find? p = some x := by
  induction l with
  | nil => simp at hx
  | cons h t ih =>
    by_cases hph : p h = true
    · have := huniq h (List.mem_cons_self _ _) hph
      subst this
      simp [List.find?, hph]
    · have hxh : x ≠ h := fun he => hph (he ▸ hpx)
      have hxt : x ∈ t := by
        rcases List.mem_cons.mp hx with h' | h'
        · exact absurd h' hxh
        · exact h'
      rw [List.find?, Bool.of_not_eq_true hph]
      exact ih hxt (fun y hy => huniq y (List.mem_cons_of_mem _ hy))

theorem alistGet_mem (l : List (Option Nat × Judgment)) (k : Option Nat) (j : Judgment)
    (h : alistGet l k = some j) : (k, j) ∈ l := by
  unfold alistGet at h
  obtain ⟨q, hq, hqj⟩ := Option.map_eq_some'.mp h
  have hmem := List.mem_of_find?_eq_some hq
  have hkey : q.1 = k := by
    have := List.find?_some hq
    exact eq_of_beq this
  have : q = (k, j) := by
    cases q; simp_all
  exact this ▸ hmem

theorem voteCount_eq_zero (vals : List Judgment) (k : Option Nat)
    (h : ∀ v ∈ vals, v.mal_id ≠ k) : voteCount vals k = 0 := by
  unfold voteCount
  rw [List.filter_eq_nil_iff.mpr]
  · rfl
  · intro v hv
    simp [h v hv]

theorem voteCount_le_one_of_nodup (vals : List Judgment)
    (h : (vals.map Judgment.mal_id).Nodup) (k : Option Nat) :
    voteCount vals k ≤ 1 := by
  induction vals with
  | nil => simp [voteCount]
  | cons v rest ih =>
    rw [List.map_cons, List.nodup_cons] at h
    obtain ⟨hv, hrest⟩ := h
    by_cases hvk : v.mal_id = k
    · have hz : voteCount rest k = 0 := by
        apply voteCount_eq_zero
        intro w hw hwk
        apply hv
        rw [hvk, ← hwk]
        exact List.mem_map_of_mem Judgment.mal_id hw
      have : voteCount (v :: rest) k = 1 + voteCount rest k := by
        simp [voteCount, List.filter, hvk]
        omega
      omega
    · have : voteCount (v :: rest) k = voteCount rest k := by
        simp [voteCount, List.filter, beq_eq_false_iff_ne.mpr hvk]
      rw [this]
      exact ih hrest

theorem resolveVotes_majority (valTimes minVal : Nat) (vals : List Judgment)
    (a : Nat) (j : Judgment)
    (ha : a ≠ 0)
    (hfind : vals.find? (fun v => v.mal_id == some a) = some j)
    (hcnt : minVal ≤ voteCount vals (some a))
    (hothers : ∀ b : Nat, b ≠ a → b ≠ 0 → voteCount vals (some b) < minVal) :
    resolveVotes valTimes minVal vals = j := by
  unfold resolveVotes
  have hget : alistGet (dMalVals vals) (some a) = some j := by
    rw [dMalVals, alistGet_dMalValsGo]
    simpa using hfind
  have hmem : (some a, j) ∈ dMalVals vals := alistGet_mem _ _ _ hget
  have hfd : (dMalVals vals).find? (fun p =>
      match p.1 with
      | none => false
      | some a => a != 0 && minVal ≤ voteCount vals (some a)) = some (some a, j) := by
    apply find?_eq_some_of_unique
    · exact hmem
    · simp [ha, hcnt]
    · intro y hy hpy
      obtain ⟨_, hid, hfy⟩ := mem_dMalValsGo vals [] y hy
      match hy1 : y.1 with
      | none => rw [hy1] at hpy; simp at hpy
      | some b =>
        rw [hy1] at hpy
        simp only [Bool.and_eq_true, bne_iff_ne, ne_eq, decide_eq_true_eq] at hpy
        obtain ⟨hb0, hbcnt⟩ := hpy
        have hba : b = a := by
          by_contra hba
          exact absurd hbcnt (Nat.not_le.mpr (hothers b hba hb0))
        subst hba
        rw [hy1] at hfy
        rw [hfind] at hfy
        have : j = y.2 := by injection hfy
        cases y
        simp_all
  simp only [hfd]

theorem find?_none_of_nomaj (minVal : Nat) (vals : List Judgment)
    (hnomaj : ∀ b : Nat, b ≠ 0 → voteCount vals (some b) < minVal) :
    (dMalVals vals).find? (fun p =>
      match p.1 with
      | none => false
      | some a => a != 0 && minVal ≤ voteCount vals (some a)) = none := by
  rw [List.find?_eq_none]
  intro y hy
  match hy1 : y.1 with
  | none => simp
  | some b =>
    simp only [Bool.and_eq_true, bne_iff_ne, ne_eq, decide_eq_true_eq, not_and]
    intro hb0
    exact Nat.not_le.mpr (hnomaj b hb0)

theorem resolveVotes_nullFallback (valTimes minVal : Nat) (vals : List Judgment)
    (j : Judgment)
    (hfind : vals.find? (fun v => v.mal_id == none) = some j)
    (hnomaj : ∀ b : Nat, b ≠ 0 → voteCount vals (some b) < minVal) :
    resolveVotes valTimes minVal vals = j := by
  unfold resolveVotes
  have hget : alistGet (dMalVals vals) none = some j := by
    rw [dMalVals, alistGet_dMalValsGo]
    simpa using hfind
  simp only [find?_none_of_nomaj minVal vals hnomaj, hget]

theorem resolveVotes_split (valTimes minVal : Nat) (vals : List Judgment)
    (hnonull : ∀ v ∈ vals, v.mal_id ≠ none)
    (hnomaj : ∀ b : Nat, b ≠ 0 → voteCount vals (some b) < minVal) :
    resolveVotes valTimes minVal vals =
      { mal_id := none, title := none,
        year := match (dMalVals vals).head? with
                | some p => p.2.year
                | none => none,
        reason := complexReason valTimes (nonNullTally vals),
        mal := none } := by
  unfold resolveVotes
  have hget : alistGet (dMalVals vals) none = none := by
    rw [dMalVals, alistGet_dMalValsGo]
    simp only [List.not_mem_nil, if_false]
    rw [List.find?_eq_none]
    intro v hv
    simpa using hnonull v hv
  simp only [find?_none_of_nomaj minVal vals hnomaj, hget]

theorem range_five_map (attempt : Nat → Judgment) :
    (List.range 5).map attempt =
      [attempt 0, attempt 1, attempt 2, attempt 3, attempt 4] := by
  rfl

theorem dMalVals_cons_head (x : Judgment) (l : List Judgment) :
    (dMalVals (x :: l)).head? = some (x.mal_id, x) := by
  rw [dMalVals, dMalValsGo]
  simp


/-! ## Claim theorems -/

/-- C1: for every resolution of one source item the resolver invokes the
single-attempt procedure a fixed number of times (default 5, `minVal` 4)
and tallies votes by resulting catalog id with null votes excluded from
the threshold check: with vote multiset `(a: 4, b: 1)` it returns the
first-seen judgment for `a` verbatim; with `(a: 2, b: 2, null: 1)` it
returns the first null judgment; with five pairwise-distinct non-null ids
it synthesizes a null judgment whose reason cites the vote split and whose
year is the first attempt's year estimate. -/
theorem C1_majority_vote_resolution :
    (∀ attempt : Nat → Judgment,
      get_full_info attempt 5 4 =
        resolveVotes 5 4 [attempt 0, attempt 1, attempt 2, attempt 3, attempt 4]) ∧
    (∀ (attempt : Nat → Judgment) (a b : Nat) (j : Judgment),
      a ≠ 0 → a ≠ b →
      (∀ i < 5, (attempt i).mal_id = some a ∨ (attempt i).mal_id = some b) →
      voteCount ((List.range 5).map attempt) (some a) = 4 →
      voteCount ((List.range 5).map attempt) (some b) = 1 →
      ((List.range 5).map attempt).find? (fun v => v.mal_id == some a) = some j →
      get_full_info attempt 5 4 = j) ∧
    (∀ (attempt : Nat → Judgment) (a b : Nat) (j : Judgment),
      voteCount ((List.range 5).map attempt) (some a) = 2 →
      voteCount ((List.range 5).map attempt) (some b) = 2 →
      voteCount ((List.range 5).map attempt) none = 1 →
      (∀ i < 5, (attempt i).mal_id = some a ∨ (attempt i).mal_id = some b ∨
        (attempt i).mal_id = none) →
      ((List.range 5).map attempt).find? (fun v => v.mal_id == none) = some j →
      get_full_info attempt 5 4 = j) ∧
    (∀ attempt : Nat → Judgment,
      (((List.range 5).map attempt).map Judgment.mal_id).Nodup →
      (∀ i < 5, (attempt i).mal_id ≠ none) →
      get_full_info attempt 5 4 =
        { mal_id := none, title := none, year := (attempt 0).year,
          reason := complexReason 5 (nonNullTally ((List.range 5).map attempt)),
          mal := none }) := by
  refine ⟨fun attempt => rfl, ?_, ?_, ?_⟩
  · intro attempt a b j ha hab hids hca hcb hfind
    apply resolveVotes_majority 5 4 _ a j ha hfind (by omega)
    intro c hca' hc0
    by_cases hcb' : c = b
    · subst hcb'; omega
    · have hz : voteCount ((List.range 5).map attempt) (some c) = 0 := by
        apply voteCount_eq_zero
        intro v hv
        obtain ⟨i, hi, rfl⟩ := List.mem_map.mp hv
        have hi5 : i < 5 := List.mem_range.mp hi
        rcases hids i hi5 with h | h <;> rw [h] <;>
          simp only [Ne, Option.some.injEq] <;> omega
      omega
  · intro attempt a b j hca hcb hcn hids hfind
    apply resolveVotes_nullFallback 5 4 _ j hfind
    intro c hc0
    by_cases h1 : c = a
    · subst h1; omega
    by_cases h2 : c = b
    · subst h2; omega
    have hz : voteCount ((List.range 5).map attempt) (some c) = 0 := by
      apply voteCount_eq_zero
      intro v hv
      obtain ⟨i, hi, rfl⟩ := List.mem_map.mp hv
      have hi5 : i < 5 := List.mem_range.mp hi
      rcases hids i hi5 with h | h | h <;> rw [h] <;>
        simp only [Ne, Option.some.injEq, reduceCtorEq, not_false_eq_true] <;> omega
    omega
  · intro attempt hnodup hnn
    have hsplit := resolveVotes_split 5 4 ((List.range 5).map attempt)
      (by
        intro v hv
        obtain ⟨i, hi, rfl⟩ := List.mem_map.mp hv
        exact hnn i (List.mem_range.mp hi))
      (by
        intro c hc0
        have := voteCount_le_one_of_nodup _ hnodup (some c)
        omega)
    rw [get_full_info, hsplit]
    rw [range_five_map, dMalVals_cons_head]

/-- Witness for C1: the three scenarios evaluated at the concrete attempt
sequences. -/
theorem C1_majority_vote_resolution_witness :
    get_full_info attemptSeqMajor 5 4 = attemptSeqMajor 0 ∧
    get_full_info attemptSeqNull 5 4 = attemptSeqNull 2 ∧
    get_full_info attemptSeqSplit 5 4 =
      { mal_id := none, title := none, year := (attemptSeqSplit 0).year,
        reason := complexReason 5 (nonNullTally ((List.range 5).map attemptSeqSplit)),
        mal := none } := by
  refine ⟨?_, ?_, ?_⟩
  · exact C1_majority_vote_resolution.2.1 attemptSeqMajor 7 9 (attemptSeqMajor 0)
      (by decide) (by decide) (by decide) (by decide) (by decide) (by decide)
  · exact C1_majority_vote_resolution.2.2.1 attemptSeqNull 7 9 (attemptSeqNull 2)
      (by decide) (by decide) (by decide) (by decide) (by decide)
  · exact C1_majority_vote_resolution.2.2.2 attemptSeqSplit (by decide) (by decide)


/-- C2: for every single resolution attempt, a parsed reply whose `mal_id`
is not among the catalog ids of the candidate list yields a null judgment
(catalog id and matched title null) that preserves the reply's reason and
year estimate, exactly as if the reply had been an explicit no-match. -/
theorem C2_hallucination_guard :
    ∀ (searchResult : List MalItem) (pinfo : ParsedInfo) (id : Nat),
      pinfo.mal_id = some id →
      (∀ it ∈ searchResult, it.mal_id ≠ id) →
      attemptResult searchResult pinfo = nullJudgment pinfo ∧
      attemptResult searchResult pinfo =
        attemptResult searchResult { pinfo with mal_id := none } ∧
      (attemptResult searchResult pinfo).mal_id = none ∧
      (attemptResult searchResult pinfo).title = none ∧
      (attemptResult searchResult pinfo).reason = pinfo.reason ∧
      (attemptResult searchResult pinfo).year = pinfo.year := by
  intro searchResult pinfo id hid hnot
  have hmem : dItemsMem searchResult id = false := by
    rw [dItemsMem, List.any_eq_false]
    intro it hit
    simpa using hnot it hit
  have hnull : attemptResult searchResult pinfo = nullJudgment pinfo := by
    rw [attemptResult, hid]
    simp [hmem]
  have hexplicit :
      attemptResult searchResult { pinfo with mal_id := none } =
        nullJudgment { pinfo with mal_id := none } := by
    rw [attemptResult]
  have hsame : nullJudgment { pinfo with mal_id := none } = nullJudgment pinfo := rfl
  rw [hnull, hexplicit, hsame]
  exact ⟨rfl, rfl, rfl, rfl, rfl, rfl⟩

/-- Witness for C2: a reply naming id 42 against candidates `(10, 11)`. -/
theorem C2_hallucination_guard_witness :
    attemptResult sampleSearch samplePinfo = nullJudgment samplePinfo ∧
    attemptResult sampleSearch samplePinfo =
      attemptResult sampleSearch { samplePinfo with mal_id := none } ∧
    (attemptResult sampleSearch samplePinfo).mal_id = none ∧
    (attemptResult sampleSearch samplePinfo).title = none ∧
    (attemptResult sampleSearch samplePinfo).reason = samplePinfo.reason ∧
    (attemptResult sampleSearch samplePinfo).year = samplePinfo.year :=
  C2_hallucination_guard sampleSearch samplePinfo 42 (by decide) (by decide)

/-- C10: an attempt whose reply parses with `mal_id` equal to the integer 0
returns a null judgment carrying the reply's reason and year — the
truthiness test `if pinfo['mal_id'] and ...` treats 0 as no-match even
when 0 is among the candidate ids — while the parser itself accepts `0` as
a valid non-negative integer literal. -/
theorem C10_zero_id_is_no_match :
    (∀ (searchResult : List MalItem) (pinfo : ParsedInfo),
      pinfo.mal_id = some 0 →
      attemptResult searchResult pinfo = nullJudgment pinfo ∧
      (attemptResult searchResult pinfo).mal_id = none ∧
      (attemptResult searchResult pinfo).title = none ∧
      (attemptResult searchResult pinfo).reason = pinfo.reason ∧
      (attemptResult searchResult pinfo).year = pinfo.year) ∧
    parseOutput "mal_id: 0\ntitle: null\nyear: 2011\nreason: no good match" =
      some { mal_id := some 0, title := "null", year := some 2011,
             reason := "no good match" } := by
  constructor
  · intro searchResult pinfo hid
    have hnull : attemptResult searchResult pinfo = nullJudgment pinfo := by
      rw [attemptResult, hid]
      simp
    rw [hnull]
    exact ⟨rfl, rfl, rfl, rfl, rfl⟩
  · decide

/-- Witness for C10: id 0 against a candidate list that even contains an
item with id 0. -/
theorem C10_zero_id_is_no_match_witness :
    attemptResult (sampleZeroItem :: sampleSearch) samplePinfoZero =
      nullJudgment samplePinfoZero ∧
    (attemptResult (sampleZeroItem :: sampleSearch) samplePinfoZero).mal_id = none ∧
    (attemptResult (sampleZeroItem :: sampleSearch) samplePinfoZero).title = none ∧
    (attemptResult (sampleZeroItem :: sampleSearch) samplePinfoZero).reason =
      samplePinfoZero.reason ∧
    (attemptResult (sampleZeroItem :: sampleSearch) samplePinfoZero).year =
      samplePinfoZero.year :=
  C10_zero_id_is_no_match.1 _ samplePinfoZero (by decide)


theorem resolveVotes_mal_id_ne_zero (valTimes minVal : Nat) (vals : List Judgment) :
    (resolveVotes valTimes minVal vals).mal_id ≠ some 0 := by
  unfold resolveVotes
  cases hfd : (dMalVals vals).find? (fun p =>
      match p.1 with
      | none => false
      | some a => a != 0 && minVal ≤ voteCount vals (some a)) with
  | some p =>
    simp only [hfd]
    have hpy := List.find?_some hfd
    have hpm := List.mem_of_find?_eq_some hfd
    obtain ⟨_, hid, _⟩ := mem_dMalValsGo vals [] p hpm
    match hp1 : p.1 with
    | none => rw [hp1] at hpy; simp at hpy
    | some a =>
      rw [hp1] at hpy
      simp only [Bool.and_eq_true, bne_iff_ne, ne_eq] at hpy
      rw [hid, hp1]
      simp [hpy.1]
  | none =>
    cases hg : alistGet (dMalVals vals) none with
    | some j =>
      simp only [hfd, hg]
      have hmem := alistGet_mem _ _ _ hg
      obtain ⟨_, hid, _⟩ := mem_dMalValsGo vals [] _ hmem
      simp only at hid
      simp [hid]
    | none => simp [hfd, hg]

/-- C4: an upstream item whose `page_id` is already present with a truthy
(`settled`, non-null) `mal_id` is skipped without re-resolving and the
table is left unchanged, in re-sync and non-re-sync mode alike; with
re-sync disabled, any existing `page_id` is skipped.  The final conjunct
shows every resolver output has `mal_id` either null or nonzero, so the
source's truthiness test coincides with the claim's non-null test on
reachable rows. -/
theorem C4_settled_records_skipped :
    (∀ (syncMode : Bool) (resolve : String → Except Unit Judgment)
        (t : List (String × Row)) (pid : String) (row : Row) (rest : List String),
      tblLookup t pid = some row → truthyOptNat row.mal_id = true →
      subspleaseSyncLoop syncMode resolve t (pid :: rest) =
        subspleaseSyncLoop syncMode resolve t rest ∧
      fancapsSyncLoop syncMode resolve t (pid :: rest) =
        fancapsSyncLoop syncMode resolve t rest) ∧
    (∀ (resolve : String → Except Unit Judgment)
        (t : List (String × Row)) (pid : String) (row : Row) (rest : List String),
      tblLookup t pid = some row →
      subspleaseSyncLoop false resolve t (pid :: rest) =
        subspleaseSyncLoop false resolve t rest ∧
      fancapsSyncLoop false resolve t (pid :: rest) =
        fancapsSyncLoop false resolve t rest) ∧
    (∀ (valTimes minVal : Nat) (vals : List Judgment),
      (resolveVotes valTimes minVal vals).mal_id ≠ some 0) := by
  refine ⟨?_, ?_, resolveVotes_mal_id_ne_zero⟩
  · intro syncMode resolve t pid row rest hlook htr
    have hskip : shouldSkip syncMode t pid = true := by
      rw [shouldSkip, hlook]
      simp [htr]
    constructor
    · rw [subspleaseSyncLoop, if_pos hskip]
    · rw [fancapsSyncLoop, if_pos hskip]
  · intro resolve t pid row rest hlook
    have hskip : shouldSkip false t pid = true := by
      rw [shouldSkip, hlook]
      simp
    constructor
    · rw [subspleaseSyncLoop, if_pos hskip]
    · rw [fancapsSyncLoop, if_pos hskip]

/-- Witness for C4: the sample table with a settled row "p1" and an
unsettled row "p2". -/
theorem C4_settled_records_skipped_witness :
    (subspleaseSyncLoop true sampleResolve sampleTable ["p1"] =
        subspleaseSyncLoop true sampleResolve sampleTable [] ∧
      fancapsSyncLoop true sampleResolve sampleTable ["p1"] =
        fancapsSyncLoop true sampleResolve sampleTable []) ∧
    (subspleaseSyncLoop false sampleResolve sampleTable ["p2"] =
        subspleaseSyncLoop false sampleResolve sampleTable [] ∧
      fancapsSyncLoop false sampleResolve sampleTable ["p2"] =
        fancapsSyncLoop false sampleResolve sampleTable []) :=
  ⟨C4_settled_records_skipped.1 true sampleResolve sampleTable "p1" sampleRow []
      (by decide) (by decide),
    C4_settled_records_skipped.2.1 sampleResolve sampleTable "p2" sampleUnsettledRow []
      (by decide)⟩


/-- C5 counterexample: the claim says a fatal error while resolving one
item is caught and the engine proceeds to the next item in both sync
loops; but the subsplease loop has no `try:`/`except:` around
`get_full_info_for_subsplease`, so with a resolver that raises on page
"x" the run aborts with the error and never reaches page "y" — while the
fancaps loop on the same input skips "x" and still processes "y". -/
theorem C5_counterexample_subsplease_aborts :
    subspleaseSyncLoop true failingResolve [] ["x", "y"] = Except.error () ∧
    fancapsSyncLoop true failingResolve [] ["x", "y"] =
      [("y", mkRow "y" (plainJudgment (some 3) "ok" none))] := by
  exact ⟨rfl, rfl⟩

/-- C5 (amended): in the fancaps sync loop a fatal error raised while
resolving one item is caught and logged, the item is skipped and the loop
proceeds with the table unchanged; in the subsplease sync loop the error
propagates and aborts the remainder of the run. -/
theorem C5_per_item_error_isolation :
    (∀ (syncMode : Bool) (resolve : String → Except Unit Judgment)
        (t : List (String × Row)) (pid : String) (rest : List String) (e : Unit),
      shouldSkip syncMode t pid = false → resolve pid = Except.error e →
      fancapsSyncLoop syncMode resolve t (pid :: rest) =
        fancapsSyncLoop syncMode resolve t rest) ∧
    (∀ (syncMode : Bool) (resolve : String → Except Unit Judgment)
        (t : List (String × Row)) (pid : String) (rest : List String) (e : Unit),
      shouldSkip syncMode t pid = false → resolve pid = Except.error e →
      subspleaseSyncLoop syncMode resolve t (pid :: rest) = Except.error e) := by
  constructor
  · intro syncMode resolve t pid rest e hskip hres
    rw [fancapsSyncLoop, if_neg (by simp [hskip]), hres]
  · intro syncMode resolve t pid rest e hskip hres
    rw [subspleaseSyncLoop, if_neg (by simp [hskip]), hres]

/-- Witness for the amended C5 at the failing resolver. -/
theorem C5_per_item_error_isolation_witness :
    fancapsSyncLoop true failingResolve [] ["x", "y"] =
      fancapsSyncLoop true failingResolve [] ["y"] ∧
    subspleaseSyncLoop true failingResolve [] ["x", "y"] = Except.error () :=
  ⟨C5_per_item_error_isolation.1 true failingResolve [] "x" ["y"] ()
      (by decide) rfl,
    C5_per_item_error_isolation.2 true failingResolve [] "x" ["y"] ()
      (by decide) rfl⟩


theorem minTimestamp_fold (tss : List Nat) :
    ∀ m : Nat, 0 < m → (∀ t ∈ tss, 0 < t) →
      ∃ m', tss.foldl minTimestampStep (some m) = some m' ∧
        (m' = m ∨ m' ∈ tss) ∧ m' ≤ m ∧ ∀ t ∈ tss, m' ≤ t := by
  induction tss with
  | nil => intro m hm _; exact ⟨m, rfl, Or.inl rfl, Nat.le_refl m, by simp⟩
  | cons t rest ih =>
    intro m hm hpos
    have hm0 : (m == 0) = false := by simp; omega
    have hstep : minTimestampStep (some m) t =
        if t < m then some t else some m := by
      rw [minTimestampStep]
      simp only [hm0, Bool.false_eq_true, if_false]
    by_cases hlt : t < m
    · obtain ⟨m', h1, h2, h3, h4⟩ := ih t (hpos t (by simp))
        (fun x hx => hpos x (List.mem_cons_of_mem _ hx))
      refine ⟨m', ?_, ?_, by omega, ?_⟩
      · rw [List.foldl_cons, hstep, if_pos hlt]; exact h1
      · rcases h2 with h | h
        · exact Or.inr (h ▸ List.mem_cons_self _ _)
        · exact Or.inr (List.mem_cons_of_mem _ h)
      · intro x hx
        rcases List.mem_cons.mp hx with h | h
        · omega
        · exact h4 x h
    · obtain ⟨m', h1, h2, h3, h4⟩ := ih m hm
        (fun x hx => hpos x (List.mem_cons_of_mem _ hx))
      refine ⟨m', ?_, ?_, h3, ?_⟩
      · rw [List.foldl_cons, hstep, if_neg hlt]; exact h1
      · rcases h2 with h | h
        · exact Or.inl h
        · exact Or.inr (List.mem_cons_of_mem _ h)
      · intro x hx
        rcases List.mem_cons.mp hx with h | h
        · omega
        · exact h4 x h

theorem minTimestamp_min (tss : List Nat) (hpos : ∀ t ∈ tss, 0 < t)
    (hne : tss ≠ []) :
    ∃ m, minTimestamp tss = some m ∧ m ∈ tss ∧ ∀ t ∈ tss, m ≤ t := by
  match tss, hne with
  | t :: rest, _ =>
    obtain ⟨m', h1, h2, h3, h4⟩ := minTimestamp_fold rest t (hpos t (by simp))
      (fun x hx => hpos x (List.mem_cons_of_mem _ hx))
    refine ⟨m', ?_, ?_, ?_⟩
    · rw [minTimestamp, List.foldl_cons]
      exact h1
    · rcases h2 with h | h
      · exact h ▸ List.mem_cons_self _ _
      · exact List.mem_cons_of_mem _ h
    · intro x hx
      rcases List.mem_cons.mp hx with h | h
      · omega
      · exact h4 x h

/-- C6 counterexample: the claim says the override path computes the year
from the item's earliest release timestamp only when the catalog record
lacks a year of its own; but `get_full_info_for_replace` always computes
the year from the release timestamps, ignoring the catalog year: with a
catalog record carrying year 2010 and a single release dated in 2023, the
produced judgment's year is 2023, not 2010. -/
theorem C6_counterexample_year_ignores_catalog :
    sampleMalFull.year = some 2010 ∧
    (get_full_info_for_replace sampleTsYear "https://subsplease.org/shows/show-1/" 5
        sampleSubs sampleMalFull).year = some 2023 ∧
    (get_full_info_for_replace sampleTsYear "https://subsplease.org/shows/show-1/" 5
        sampleSubs sampleMalFull).year ≠ sampleMalFull.year := by
  refine ⟨rfl, by decide, by decide⟩

/-- C6 (amended): the override path attaches the fetched full catalog
record to the judgment and synthesizes a reason citing the manual
override, and the year is always computed from the source item's own
earliest release timestamp (regardless of what the catalog record's year
is), null when the item has no release entries. -/
theorem C6_override_path :
    (∀ (tsYear : Nat → Nat) (pageUrl : String) (malId : Nat)
        (subs : SubsInfo) (malInfo : MalItem),
      (get_full_info_for_replace tsYear pageUrl malId subs malInfo).mal =
          some malInfo ∧
      (get_full_info_for_replace tsYear pageUrl malId subs malInfo).mal_id =
          some malInfo.mal_id ∧
      (get_full_info_for_replace tsYear pageUrl malId subs malInfo).title =
          some malInfo.title ∧
      (get_full_info_for_replace tsYear pageUrl malId subs malInfo).reason =
        "Admin specified " ++ pyReprStr pageUrl ++ " to mal #" ++ toString malId) ∧
    (∀ (tsYear : Nat → Nat) (pageUrl : String) (malId : Nat)
        (subs : SubsInfo) (malInfo malInfo' : MalItem),
      (get_full_info_for_replace tsYear pageUrl malId subs malInfo).year =
        (get_full_info_for_replace tsYear pageUrl malId subs malInfo').year) ∧
    (∀ (tsYear : Nat → Nat) (pageUrl : String) (malId : Nat)
        (subs : SubsInfo) (malInfo : MalItem),
      (∀ r ∈ subs.batch ++ subs.episode, 0 < r.release_ts) →
      subs.batch ++ subs.episode ≠ [] →
      ∃ m, (get_full_info_for_replace tsYear pageUrl malId subs malInfo).year =
          some (tsYear m) ∧
        m ∈ (subs.batch ++ subs.episode).map SubsRelease.release_ts ∧
        ∀ t ∈ (subs.batch ++ subs.episode).map SubsRelease.release_ts, m ≤ t) ∧
    (∀ (tsYear : Nat → Nat) (pageUrl : String) (malId : Nat)
        (subs : SubsInfo) (malInfo : MalItem),
      subs.batch = [] → subs.episode = [] →
      (get_full_info_for_replace tsYear pageUrl malId subs malInfo).year = none) := by
  refine ⟨fun _ _ _ _ _ => ⟨rfl, rfl, rfl, rfl⟩, fun _ _ _ _ _ _ => rfl, ?_, ?_⟩
  · intro tsYear pageUrl malId subs malInfo hpos hne
    have hpos' : ∀ t ∈ (subs.batch ++ subs.episode).map SubsRelease.release_ts, 0 < t := by
      intro t ht
      obtain ⟨r, hr, rfl⟩ := List.mem_map.mp ht
      exact hpos r hr
    have hne' : (subs.batch ++ subs.episode).map SubsRelease.release_ts ≠ [] := by
      simpa using hne
    obtain ⟨m, h1, h2, h3⟩ := minTimestamp_min _ hpos' hne'
    have hm0 : (m == 0) = false := by
      have := hpos' m h2
      simp; omega
    refine ⟨m, ?_, h2, h3⟩
    simp only [get_full_info_for_replace, h1, hm0, Bool.false_eq_true, if_false]
  · intro tsYear pageUrl malId subs malInfo hb he
    simp only [get_full_info_for_replace, hb, he, List.append_nil, List.map_nil]
    rfl

/-- Witness for the amended C6: the sample item with one 2023 release, and
the sample item with no releases. -/
theorem C6_override_path_witness :
    (∃ m, (get_full_info_for_replace sampleTsYear "u" 5 sampleSubs sampleMalFull).year =
        some (sampleTsYear m) ∧
      m ∈ (sampleSubs.batch ++ sampleSubs.episode).map SubsRelease.release_ts ∧
      ∀ t ∈ (sampleSubs.batch ++ sampleSubs.episode).map SubsRelease.release_ts, m ≤ t) ∧
    (get_full_info_for_replace sampleTsYear "u" 5 sampleSubsNoReleases sampleMalFull).year =
      none :=
  ⟨C6_override_path.2.2.1 sampleTsYear "u" 5 sampleSubs sampleMalFull
      (by decide) (by decide),
    C6_override_path.2.2.2 sampleTsYear "u" 5 sampleSubsNoReleases sampleMalFull rfl rfl⟩


/-- C7: the embedded feed is queried once per quality tier in the fixed
preference order, stopping at the first tier that returns any entries,
with no merging across tiers; in particular with empty results for 1080p
and entries for 720p, the 720p entry set is returned, the tier reported is
720p, and SD is never queried.  (Spec-modelled: the feed-query code is not
present under `src/`; see `feedLookupGo`.) -/
theorem C7_tier_fallback :
    (∀ (queryFeed : String → List FeedEntry) (pre : List String) (t : String)
        (rest : List String),
      (∀ s ∈ pre, queryFeed s = []) → queryFeed t ≠ [] →
      feedLookup queryFeed (pre ++ t :: rest) =
        (pre ++ [t], some (t, queryFeed t))) ∧
    (∀ (queryFeed : String → List FeedEntry) (e : FeedEntry) (es : List FeedEntry),
      queryFeed "1080p" = [] → queryFeed "720p" = e :: es →
      feedLookup queryFeed ["1080p", "720p", "SD"] =
        (["1080p", "720p"], some ("720p", e :: es)) ∧
      "SD" ∉ (feedLookup queryFeed ["1080p", "720p", "SD"]).1) := by
  have hgen : ∀ (queryFeed : String → List FeedEntry) (pre : List String)
      (t : String) (rest : List String),
      (∀ s ∈ pre, queryFeed s = []) → queryFeed t ≠ [] →
      feedLookup queryFeed (pre ++ t :: rest) =
        (pre ++ [t], some (t, queryFeed t)) := by
    intro queryFeed pre
    induction pre with
    | nil =>
      intro t rest _ ht
      have hne : (queryFeed t).isEmpty = false := by
        simpa using ht
      simp [feedLookup, feedLookupGo, hne]
    | cons p pre ih =>
      intro t rest hpre ht
      have hp : (queryFeed p).isEmpty = true := by
        simp [hpre p (List.mem_cons_self _ _)]
      have := ih t rest (fun s hs => hpre s (List.mem_cons_of_mem _ hs)) ht
      rw [feedLookup] at this
      simp [feedLookup, feedLookupGo, hp, this]
  refine ⟨hgen, ?_⟩
  intro queryFeed e es h1080 h720
  have := hgen queryFeed ["1080p"] "720p" ["SD"]
    (by intro s hs; simp at hs; rw [hs]; exact h1080)
    (by rw [h720]; simp)
  rw [h720] at this
  simp only [List.cons_append, List.nil_append] at this
  refine ⟨this, ?_⟩
  rw [this]
  intro hmem
  simp at hmem

/-- Witness for C7 at the sample feed (which even has SD entries that are
never reached). -/
theorem C7_tier_fallback_witness :
    feedLookup sampleQueryFeed ["1080p", "720p", "SD"] =
      (["1080p", "720p"], some ("720p", [sampleFeedEntry])) ∧
    "SD" ∉ (feedLookup sampleQueryFeed ["1080p", "720p", "SD"]).1 :=
  C7_tier_fallback.2 sampleQueryFeed sampleFeedEntry [] rfl rfl


theorem filterItemsGo_eq_spec (items : List MalItem) :
    ∀ seen : List Nat,
      filterItemsGo items seen = specDedupFirst (items.filter specAllowedType) seen := by
  induction items with
  | nil => intro seen; rfl
  | cons it rest ih =>
    intro seen
    cases hm : it.mtype with
    | none =>
      have hall : specAllowedType it = false := by simp only [specAllowedType, hm]
      simp only [filterItemsGo, hm, List.filter_cons, hall, Bool.false_eq_true,
        if_false]
      exact ih seen
    | some ty =>
      by_cases hty : ty.isEmpty
      · have hempty : ty = "" := (String.isEmpty_iff ty).mp hty
        have hall : specAllowedType it = false := by
          simp only [specAllowedType, hm, hempty]
          decide
        simp only [filterItemsGo, hm, if_pos hty, List.filter_cons, hall,
          Bool.false_eq_true, if_false]
        exact ih seen
      · by_cases hin : typeMapKeys.contains (pyLower ty)
        · have hall : specAllowedType it = true := by
            simp only [specAllowedType, hm]; exact hin
          simp only [filterItemsGo, hm, if_neg hty, hin, Bool.not_true,
            Bool.false_eq_true, if_false, List.filter_cons, hall, if_true]
          by_cases hseen : seen.contains it.mal_id
          · rw [if_pos hseen, specDedupFirst, if_pos hseen]
            exact ih seen
          · rw [if_neg hseen, specDedupFirst, if_neg hseen, ih (it.mal_id :: seen)]
        · have hall : specAllowedType it = false := by
            simp only [specAllowedType, hm]
            exact Bool.of_not_eq_true hin
          have hin' : typeMapKeys.contains (pyLower ty) = false :=
            Bool.of_not_eq_true hin
          simp only [filterItemsGo, hm, if_neg hty, hin', Bool.not_false,
            if_true, List.filter_cons, hall, Bool.false_eq_true, if_false]
          exact ih seen

theorem filterItemsGo_sublist (items : List MalItem) :
    ∀ seen : List Nat, (filterItemsGo items seen).Sublist items := by
  induction items with
  | nil => intro seen; exact List.Sublist.refl _
  | cons it rest ih =>
    intro seen
    cases hm : it.mtype with
    | none =>
      simp only [filterItemsGo, hm]
      exact (ih seen).cons it
    | some ty =>
      by_cases hty : ty.isEmpty
      · simp only [filterItemsGo, hm, if_pos hty]
        exact (ih seen).cons it
      · by_cases hin : typeMapKeys.contains (pyLower ty)
        · simp only [filterItemsGo, hm, if_neg hty, hin, Bool.not_true,
            Bool.false_eq_true, if_false]
          by_cases hseen : seen.contains it.mal_id
          · rw [if_pos hseen]; exact (ih seen).cons it
          · rw [if_neg hseen]; exact (ih (it.mal_id :: seen)).cons₂ it
        · have hin' : typeMapKeys.contains (pyLower ty) = false :=
            Bool.of_not_eq_true hin
          simp only [filterItemsGo, hm, if_neg hty, hin', Bool.not_false, if_true]
          exact (ih seen).cons it

/-- C8: the catalog search client returns the raw candidate sequence
filtered to the allowed media types (tv, movie, ova, ona, compared
case-insensitively, dropping entries with a missing type), de-duplicated
by catalog id keeping the first occurrence, and preserving the original
search-result order among the kept entries (the output is a sublist of the
input). -/
theorem C8_search_filter_dedup :
    ∀ items : List MalItem,
      get_items_from_myanimelist items =
        specDedupFirst (items.filter specAllowedType) [] ∧
      (get_items_from_myanimelist items).Sublist items := by
  intro items
  exact ⟨filterItemsGo_eq_spec items [], filterItemsGo_sublist items []⟩


theorem searchAnimeLoop_first_nonratelimited (responses : Nat → SearchOutcome) :
    ∀ (k i fuel : Nat),
      (∀ j < k, responses (i + j) = SearchOutcome.httpError 429) →
      k < fuel →
      (∀ items, responses (i + k) = SearchOutcome.ok items →
        searchAnimeLoop responses i fuel = (SearchResult.done items, 5 * k)) ∧
      (∀ st, st ≠ 429 → responses (i + k) = SearchOutcome.httpError st →
        searchAnimeLoop responses i fuel = (SearchResult.raised st, 5 * k)) := by
  intro k
  induction k with
  | zero =>
    intro i fuel _ hfuel
    match fuel, hfuel with
    | f + 1, _ =>
      constructor
      · intro items hok
        rw [searchAnimeLoop]
        rw [Nat.add_zero] at hok
        rw [hok]
      · intro st hst herr
        rw [searchAnimeLoop]
        rw [Nat.add_zero] at herr
        rw [herr]
        have : (st == 429) = false := by simp [hst]
        simp [this]
  | succ k ih =>
    intro i fuel h429 hfuel
    match fuel, hfuel with
    | f + 1, _ =>
      have hi : responses i = SearchOutcome.httpError 429 := by
        have := h429 0 (Nat.succ_pos k)
        simpa using this
      have hrec := ih (i + 1) f
        (by
          intro j hj
          have := h429 (j + 1) (by omega)
          rw [← this]
          congr 1
          omega)
        (by omega)
      have hshift : i + 1 + k = i + (k + 1) := by omega
      constructor
      · intro items hok
        have hr := hrec.1 items (by rw [hshift]; exact hok)
        rw [searchAnimeLoop, hi]
        simp only [hr]
        simp [Nat.mul_succ]
      · intro st hst herr
        have hr := hrec.2 st hst (by rw [hshift]; exact herr)
        rw [searchAnimeLoop, hi]
        simp only [hr]
        simp [Nat.mul_succ]

theorem searchAnimeLoop_429_forever (responses : Nat → SearchOutcome)
    (h : ∀ j, responses j = SearchOutcome.httpError 429) :
    ∀ fuel i, searchAnimeLoop responses i fuel = (SearchResult.retrying, 5 * fuel) := by
  intro fuel
  induction fuel with
  | zero => intro i; rfl
  | succ f ih =>
    intro i
    rw [searchAnimeLoop, h i]
    simp only [ih (i + 1)]
    simp [Nat.mul_succ]

/-- C9: an HTTP 429 from the catalog search makes the client sleep a fixed
5-second backoff and retry the same query, with no cap on the number of
attempts and invisibly to the caller (the successful reply after any
number k of 429s is returned as if no error occurred, having slept 5k
seconds); an HTTP error with any other status propagates unrecovered; and
on nothing but 429s the loop never terminates and never raises. -/
theorem C9_rate_limit_retry :
    (∀ (responses : Nat → SearchOutcome) (k fuel : Nat) (items : List MalItem),
      (∀ j < k, responses j = SearchOutcome.httpError 429) →
      responses k = SearchOutcome.ok items →
      k < fuel →
      searchAnimeLoop responses 0 fuel = (SearchResult.done items, 5 * k)) ∧
    (∀ (responses : Nat → SearchOutcome) (k fuel st : Nat),
      st ≠ 429 →
      (∀ j < k, responses j = SearchOutcome.httpError 429) →
      responses k = SearchOutcome.httpError st →
      k < fuel →
      searchAnimeLoop responses 0 fuel = (SearchResult.raised st, 5 * k)) ∧
    (∀ responses : Nat → SearchOutcome,
      (∀ j, responses j = SearchOutcome.httpError 429) →
      ∀ fuel, searchAnimeLoop responses 0 fuel = (SearchResult.retrying, 5 * fuel)) := by
  refine ⟨?_, ?_, ?_⟩
  · intro responses k fuel items h429 hok hfuel
    exact (searchAnimeLoop_first_nonratelimited responses k 0 fuel
      (by simpa using h429) hfuel).1 items (by simpa using hok)
  · intro responses k fuel st hst h429 herr hfuel
    exact (searchAnimeLoop_first_nonratelimited responses k 0 fuel
      (by simpa using h429) hfuel).2 st hst (by simpa using herr)
  · intro responses h fuel
    exact searchAnimeLoop_429_forever responses h fuel 0

/-- Witness for C9: two 429s then success; one 429 then a 500; pure 429s. -/
theorem C9_rate_limit_retry_witness :
    searchAnimeLoop sampleResponsesOk 0 10 = (SearchResult.done sampleSearch, 10) ∧
    searchAnimeLoop sampleResponsesErr 0 10 = (SearchResult.raised 500, 5) ∧
    searchAnimeLoop sampleResponses429 0 7 = (SearchResult.retrying, 35) :=
  ⟨C9_rate_limit_retry.1 sampleResponsesOk 2 10 sampleSearch
      (by decide) (by decide) (by decide),
    C9_rate_limit_retry.2.1 sampleResponsesErr 1 10 500
      (by decide) (by decide) (by decide) (by decide),
    C9_rate_limit_retry.2.2 sampleResponses429 (fun _ => rfl) 7⟩


theorem parseLine_reason_none (m : Option (Option Nat)) (t : Option String)
    (y : Option (Option Nat)) (l : String) (st₁ : ParseState)
    (hnor : parseReasonLine (pyStripList l.toList) = none)
    (h : parseLine ⟨m, t, y, none⟩ l = some st₁) : st₁.reason = none := by
  simp only [parseLine] at h
  cases m with
  | none =>
    dsimp only at h
    by_cases he : (pyStripList l.toList).isEmpty
    · rw [if_pos he] at h
      cases h
      rfl
    · rw [if_neg he] at h
      obtain ⟨v, _, hst⟩ := Option.map_eq_some'.mp h
      rw [← hst]
  | some m' =>
    cases t with
    | none =>
      dsimp only at h
      by_cases he : (pyStripList l.toList).isEmpty
      · rw [if_pos he] at h
        cases h
        rfl
      · rw [if_neg he] at h
        obtain ⟨v, _, hst⟩ := Option.map_eq_some'.mp h
        rw [← hst]
    | some t' =>
      cases y with
      | none =>
        dsimp only at h
        by_cases he : (pyStripList l.toList).isEmpty
        · rw [if_pos he] at h
          cases h
          rfl
        · rw [if_neg he] at h
          obtain ⟨v, _, hst⟩ := Option.map_eq_some'.mp h
          rw [← hst]
      | some y' =>
        dsimp only at h
        rw [hnor] at h
        simp at h

theorem foldParse_reason_none (lines : List String) :
    ∀ st : ParseState, st.reason = none →
      (∀ l ∈ lines, parseReasonLine (pyStripList l.toList) = none) →
      lines.foldlM parseLine st = none ∨
        ∃ st', lines.foldlM parseLine st = some st' ∧ st'.reason = none := by
  induction lines with
  | nil =>
    intro st hr _
    exact Or.inr ⟨st, rfl, hr⟩
  | cons l rest ih =>
    intro st hr hnor
    rw [List.foldlM_cons]
    cases hpl : parseLine st l with
    | none => exact Or.inl rfl
    | some st₁ =>
      have hr₁ : st₁.reason = none := by
        obtain ⟨m, t, y, r⟩ := st
        simp only at hr
        subst hr
        exact parseLine_reason_none m t y l st₁ (hnor l (List.mem_cons_self _ _)) hpl
      simpa using ih st₁ hr₁ (fun x hx => hnor x (List.mem_cons_of_mem _ hx))

theorem foldParse_first_line_malid (pre : List String) :
    ∀ (l : String) (post : List String) (st : ParseState), st.mal_id = none →
      (∀ p ∈ pre, pyStripList p.toList = []) →
      ¬ (pyStripList l.toList).isEmpty →
      parseIntOrNull malIdLabel (pyStripList l.toList) = none →
      (pre ++ l :: post).foldlM parseLine st = none := by
  induction pre with
  | nil =>
    intro l post st hm hpre hne hno
    rw [List.nil_append, List.foldlM_cons]
    have : parseLine st l = none := by
      obtain ⟨m, t, y, r⟩ := st
      simp only at hm
      subst hm
      simp only [parseLine, if_neg hne, hno, Option.map_none']
    rw [this]
    rfl
  | cons p pre ih =>
    intro l post st hm hpre hne hno
    rw [List.cons_append, List.foldlM_cons]
    have hp : pyStripList p.toList = [] := hpre p (List.mem_cons_self _ _)
    have : parseLine st p = some st := by
      obtain ⟨m, t, y, r⟩ := st
      simp only at hm
      subst hm
      simp only [parseLine, hp, List.isEmpty_nil, if_true]
    rw [this]
    exact ih l post st hm (fun x hx => hpre x (List.mem_cons_of_mem _ hx)) hne hno

theorem askAttempts_all_fail (searchResult : List MalItem) :
    ∀ replies : List String,
      (∀ r ∈ replies, parseOutput r = none) →
      askAttempts searchResult replies = Except.error () := by
  intro replies
  induction replies with
  | nil => intro _; rfl
  | cons r rest ih =>
    intro h
    rw [askAttempts, h r (List.mem_cons_self _ _)]
    exact ih (fun x hx => h x (List.mem_cons_of_mem _ hx))

theorem askAttempts_ok_from_parse (searchResult : List MalItem) :
    ∀ (replies : List String) (j : Judgment),
      askAttempts searchResult replies = Except.ok j →
      ∃ r ∈ replies, ∃ pinfo, parseOutput r = some pinfo ∧
        j = attemptResult searchResult pinfo := by
  intro replies
  induction replies with
  | nil => intro j h; exact absurd h (by rw [askAttempts]; exact fun h => by cases h)
  | cons r rest ih =>
    intro j h
    rw [askAttempts] at h
    cases hp : parseOutput r with
    | some pinfo =>
      rw [hp] at h
      cases h
      exact ⟨r, List.mem_cons_self _ _, pinfo, hp, rfl⟩
    | none =>
      rw [hp] at h
      obtain ⟨r', hr', hrest⟩ := ih j h
      exact ⟨r', List.mem_cons_of_mem _ hr', hrest⟩


theorem dropExact_self_append : ∀ label rest : List Char,
    dropExact label (label ++ rest) = some rest := by
  intro label
  induction label with
  | nil => intro rest; rfl
  | cons c cs ih => intro rest; simp [dropExact, ih]

theorem dropLeadingSpaces_cons (c : Char) (l : List Char) :
    dropLeadingSpaces (c :: l) = if isPySpace c then dropLeadingSpaces l else c :: l := by
  simp [dropLeadingSpaces, List.dropWhile_cons]

/-- C3: reply parsing accepts only the exact four-field labeled shape; a
reply with no line matching the `reason:` regex fails to parse, a reply
whose first nonempty line fails the `mal_id` regex (in particular a
non-integer, non-null `mal_id` value) fails to parse, a parse failure makes
the loop retry with the next reply, after 5 consecutive parse failures the
call raises a fatal error, and a successful call's judgment always comes
from a reply that parsed completely (never a partial judgment). -/
theorem C3_parse_strictness :
    (∀ s : String,
      (∀ l ∈ pySplitlines (pyStrip s), parseReasonLine (pyStripList l.toList) = none) →
      parseOutput s = none) ∧
    (∀ (s : String) (pre : List String) (l : String) (post : List String),
      pySplitlines (pyStrip s) = pre ++ l :: post →
      (∀ p ∈ pre, pyStripList p.toList = []) →
      ¬ (pyStripList l.toList).isEmpty →
      parseIntOrNull malIdLabel (pyStripList l.toList) = none →
      parseOutput s = none) ∧
    (∀ v : List Char,
      dropLeadingSpaces v = v →
      v ≠ ['n', 'u', 'l', 'l'] →
      ¬(v ≠ [] ∧ v.all Char.isDigit) →
      parseIntOrNull malIdLabel (malIdLabel ++ ':' :: ' ' :: v) = none) ∧
    (∀ (searchResult : List MalItem) (r : String) (rest : List String),
      parseOutput r = none →
      askAttempts searchResult (r :: rest) = askAttempts searchResult rest) ∧
    (∀ (searchResult : List MalItem) (replies : List String),
      (∀ r ∈ replies.take 5, parseOutput r = none) →
      ask_chatgpt searchResult replies 5 = Except.error ()) ∧
    (∀ (searchResult : List MalItem) (replies : List String) (maxTries : Nat)
        (j : Judgment),
      ask_chatgpt searchResult replies maxTries = Except.ok j →
      ∃ r ∈ replies, ∃ pinfo, parseOutput r = some pinfo ∧
        j = attemptResult searchResult pinfo) := by
  refine ⟨?_, ?_, ?_, ?_, ?_, ?_⟩
  · intro s hnor
    rw [parseOutput]
    rcases foldParse_reason_none (pySplitlines (pyStrip s)) initParseState rfl hnor with
      hnone | ⟨st, hsome, hr⟩
    · rw [hnone]
    · rw [hsome]
      obtain ⟨m, t, y, r⟩ := st
      simp only at hr
      subst hr
      cases m <;> cases t <;> cases y <;> rfl
  · intro s pre l post hdec hpre hne hno
    rw [parseOutput, hdec,
      foldParse_first_line_malid pre l post initParseState rfl hpre hne hno]
  · intro v hd hnull hbad
    have hc1 : isPySpace ':' = false := by decide
    have hc2 : isPySpace ' ' = true := by decide
    have h1 : (v == ['n', 'u', 'l', 'l']) = false := beq_eq_false_iff_ne.mpr hnull
    have h2 : (!v.isEmpty && v.all Char.isDigit) = false := by
      by_cases hv : v = []
      · subst hv; rfl
      · have hall : v.all Char.isDigit = false := by
          cases hc : v.all Char.isDigit with
          | false => rfl
          | true => exact absurd ⟨hv, hc⟩ hbad
        simp [hall]
    rw [parseIntOrNull, dropExact_self_append]
    dsimp only
    rw [dropLeadingSpaces_cons, hc1]
    simp only [Bool.false_eq_true, if_false]
    rw [dropLeadingSpaces_cons, hc2]
    simp only [if_true, hd, h1, Bool.false_eq_true, if_false, h2]
  · intro searchResult r rest h
    rw [askAttempts, h]
  · intro searchResult replies h
    rw [ask_chatgpt]
    exact askAttempts_all_fail searchResult (replies.take 5) h
  · intro searchResult replies maxTries j h
    rw [ask_chatgpt] at h
    obtain ⟨r, hr, pinfo, hp, hj⟩ := askAttempts_ok_from_parse searchResult _ j h
    exact ⟨r, List.take_subset _ _ hr, pinfo, hp, hj⟩

/-- Witness for C3: a reply missing the reason line, a reply with a
non-integer mal_id value, the bare value-level regex rejection, a retry
consuming one bad reply, a fatal error after five bad replies (with a
sixth, good reply out of reach behind the cap), and a successful call
traced back to its parsed reply. -/
theorem C3_parse_strictness_witness :
    parseOutput "mal_id: 3\ntitle: Foo\nyear: 2000" = none ∧
    parseOutput "mal_id: wrong\ntitle: Foo\nyear: 2000\nreason: r" = none ∧
    parseIntOrNull malIdLabel (malIdLabel ++ ':' :: ' ' :: ['a', 'b', 'c']) = none ∧
    askAttempts sampleSearch
        ["bad reply", "mal_id: null\ntitle: null\nyear: null\nreason: nope"] =
      askAttempts sampleSearch
        ["mal_id: null\ntitle: null\nyear: null\nreason: nope"] ∧
    ask_chatgpt sampleSearch
        ["b1", "b2", "b3", "b4", "b5",
          "mal_id: null\ntitle: null\nyear: null\nreason: nope"] 5 =
      Except.error () ∧
    (∃ r ∈ ["mal_id: null\ntitle: null\nyear: null\nreason: nope"], ∃ pinfo,
      parseOutput r = some pinfo ∧
        plainJudgment none "nope" none = attemptResult sampleSearch pinfo) :=
  ⟨C3_parse_strictness.1 "mal_id: 3\ntitle: Foo\nyear: 2000" (by decide),
    C3_parse_strictness.2.1 "mal_id: wrong\ntitle: Foo\nyear: 2000\nreason: r"
      [] "mal_id: wrong" ["title: Foo", "year: 2000", "reason: r"]
      (by decide) (by decide) (by decide) (by decide),
    C3_parse_strictness.2.2.1 ['a', 'b', 'c'] (by decide) (by decide) (by decide),
    C3_parse_strictness.2.2.2.1 sampleSearch "bad reply"
      ["mal_id: null\ntitle: null\nyear: null\nreason: nope"] (by decide),
    C3_parse_strictness.2.2.2.2.1 sampleSearch
      ["b1", "b2", "b3", "b4", "b5",
        "mal_id: null\ntitle: null\nyear: null\nreason: nope"] (by decide),
    C3_parse_strictness.2.2.2.2.2 sampleSearch
      ["mal_id: null\ntitle: null\nyear: null\nreason: nope"] 5
      (plainJudgment none "nope" none) rfl⟩


end AnimeSites
